import Mathlib

/-!
# Verification of `crop_monsters.py`

A shallow embedding of the sprite-sheet slicing script: RGBA raster images
are modelled as a size plus a pixel function with 8-bit channel values kept
as `ℕ`, the numpy/PIL per-pixel arithmetic is translated to exact `ℕ`/`ℤ`/`ℚ`
arithmetic (the float quantities the script computes — `brightness`,
the scale factor, the cell-grid coordinates — stay in ranges where binary
floating point and exact rational arithmetic agree on every comparison and
floor the script performs), and the PIL calls used by the script are
embedded at the precision its behaviour depends on, as documented on each
definition.  File-system writes are modelled by the list of file names the
script produces, in the order it writes them.
-/

/-- One RGBA pixel: channel values are 8-bit (0..255) in the program; the
model does not need the upper bound for any property proved here. -/
structure Pixel where
  r : ℕ
  g : ℕ
  b : ℕ
  a : ℕ
deriving DecidableEq

/-- An RGBA raster image: PIL images are always accessed through
`convert('RGBA')` in the script, so the embedding fixes the mode to RGBA.
`pixel` is total; only its values at coordinates `x < width`, `y < height`
model the image. -/
@[ext]
structure Img where
  width : ℕ
  height : ℕ
  pixel : ℕ → ℕ → Pixel

/-- `Image.new('RGBA', (w, h), (0, 0, 0, 0))`: a fully transparent canvas. -/
def newImg (w h : ℕ) : Img :=
  ⟨w, h, fun _ _ => ⟨0, 0, 0, 0⟩⟩

/-- An image every pixel of which is the same value (used for concrete
test inputs). -/
def constImg (w h : ℕ) (p : Pixel) : Img :=
  ⟨w, h, fun _ _ => p⟩

/-- Every pixel of the image is fully transparent (alpha 0). -/
def fullyTransparent (img : Img) : Prop :=
  ∀ x < img.width, ∀ y < img.height, (img.pixel x y).a = 0

instance (img : Img) : Decidable (fullyTransparent img) := by
  unfold fullyTransparent
  infer_instance

/-! ## `remove_checkerboard_bg` (lines 140–169)

numpy widens the channels to `int16`, so `|r - g|` etc. never overflow and
are embedded as exact integer arithmetic; `brightness = (r+g+b)/3.0` is a
float, but with `r+g+b ≤ 765` the comparison `brightness > 180` agrees
with the exact rational comparison (540/3 is exactly 180.0 in binary
floating point, and no rounding of `s/3.0` for an integer `s ≤ 765` can
cross the integer-thirds boundary), so the model uses `ℚ`. -/

/-- `max_diff`: the maximum pairwise channel difference of a pixel,
`np.maximum(np.maximum(|r-g|, |g-b|), |r-b|)` on int16 channels. -/
def maxDiff (p : Pixel) : ℕ :=
  max (max ((p.r : ℤ) - (p.g : ℤ)).natAbs ((p.g : ℤ) - (p.b : ℤ)).natAbs)
    ((p.r : ℤ) - (p.b : ℤ)).natAbs

/-- `brightness = (r + g + b) / 3.0`. -/
def brightness (p : Pixel) : ℚ :=
  ((p.r : ℚ) + (p.g : ℚ) + (p.b : ℚ)) / 3

/-- `is_gray = (max_diff < 20) & (brightness > 180)`. -/
def isGray (p : Pixel) : Bool :=
  decide (maxDiff p < 20 ∧ (180 : ℚ) < brightness p)

/-- `remove_checkerboard_bg`: `data[:,:,3] = np.where(is_gray, 0, data[:,:,3])` —
the alpha channel of a gray pixel is forced to 0, everything else is kept. -/
def remove_checkerboard_bg (img : Img) : Img :=
  { img with
    pixel := fun x y =>
      let p := img.pixel x y
      if isGray p then { p with a := 0 } else p }

/-! ## `auto_crop_alpha` (lines 172–180) -/

/-- The in-bounds coordinates of the pixels that are not fully transparent
(the pixels `Image.getbbox` bounds: Pillow's default `alpha_only=True`
trims by the alpha band of an RGBA image). -/
def opaquePoints (img : Img) : List (ℕ × ℕ) :=
  (List.range img.width).flatMap fun x =>
    (List.range img.height).filterMap fun y =>
      if (img.pixel x y).a ≠ 0 then some (x, y) else none

/-- `Image.getbbox()`: the minimal `(left, upper, right, lower)` box holding
every non-fully-transparent pixel, or `none` when there is no such pixel. -/
def getbbox (img : Img) : Option (ℕ × ℕ × ℕ × ℕ) :=
  match opaquePoints img with
  | [] => none
  | q :: qs =>
    let xs := (q :: qs).map Prod.fst
    let ys := (q :: qs).map Prod.snd
    some (xs.foldl min q.1, ys.foldl min q.2,
      xs.foldl max q.1 + 1, ys.foldl max q.2 + 1)

/-- `Image.crop((l, t, r, b))`: the `(r-l) × (b-t)` sub-image whose pixel
`(x, y)` is the source's pixel `(l+x, t+y)` (the script only crops boxes
inside the source, so PIL's zero-padding of out-of-range boxes is not
modelled). -/
def crop (img : Img) (l t r b : ℕ) : Img :=
  ⟨r - l, b - t, fun x y => img.pixel (l + x) (t + y)⟩

/-- `auto_crop_alpha`: crop to the bounding box of the non-transparent
pixels; when `getbbox()` is `None` the image is returned unchanged. -/
def auto_crop_alpha (img : Img) : Img :=
  match getbbox img with
  | none => img
  | some (l, t, r, b) => crop img l t r b

/-! ## `crop_and_center` (lines 183–206) -/

/-- `Image.resize((new_w, new_h), Image.LANCZOS)`, embedded at the precision
the script's behaviour depends on: Pillow raises
`ValueError("height and width must be > 0")` when either requested
dimension is below 1 (modelled as `none`); otherwise it produces an image
of exactly the requested dimensions each of whose pixels resamples source
pixels.  The resampling itself is modelled as point sampling: no property
proved in this file depends on the LANCZOS filter weights (a weighted
average of fully transparent pixels is fully transparent under any
filter). -/
def resize (img : Img) (new_w new_h : ℕ) : Option Img :=
  if new_w = 0 ∨ new_h = 0 then none
  else
    some ⟨new_w, new_h, fun x y =>
      img.pixel (x * img.width / new_w) (y * img.height / new_h)⟩

/-- One channel of `Image.paste(src, box, mask)` with an RGBA mask: the mask
value interpolates between the destination and source channel values. -/
def blendChannel (dst src mask : ℕ) : ℕ :=
  (src * mask + dst * (255 - mask)) / 255

/-- `result.paste(resized, (paste_x, paste_y), resized)`: inside the pasted
box every channel (alpha included) is blended under the source's own alpha
as mask; outside it the destination is untouched. -/
def paste_mask (dest src : Img) (px py : ℕ) : Img :=
  { dest with
    pixel := fun x y =>
      if px ≤ x ∧ x < px + src.width ∧ py ≤ y ∧ y < py + src.height then
        let s := src.pixel (x - px) (y - py)
        let d := dest.pixel x y
        ⟨blendChannel d.r s.r s.a, blendChannel d.g s.g s.a,
          blendChannel d.b s.b s.a, blendChannel d.a s.a s.a⟩
      else dest.pixel x y }

/-- Lines 195–197 of the source: the scale factor
`ratio = min(max_dim/w, max_dim/h)` and the scaled dimensions
`(int(w * ratio), int(h * ratio))`, embedded as exact `ℚ` arithmetic with
`Int.floor` (the arguments are nonnegative, so Python's truncating `int()`
is a floor).  The source computes in IEEE float64, which can land one
below this exact floor when `w * ratio` sits within rounding error of an
integer: at aspect ratio exactly 224 (for instance 49 × 10976) the float
product `49 * fl(224/10976)` is `1 - 2⁻⁵³` and `int` gives 0 where the
exact floor is 1.  A theorem that needs the program's scaled dimensions to
be nonzero therefore assumes dimensions at most `2³¹` (Pillow sizes are C
ints) with aspect ratio strictly below 224: there the exact value is at
least `1 + 2⁻³¹` while the division and the multiplication round by at
most a factor `(1 - 2⁻⁵³)²` each way, so the float value also stays at
least 1.  `new_dims_thin` (1 × 225) lies where exact and float agree on
0. -/
def new_dims (w h m : ℕ) : ℕ × ℕ :=
  let fit : ℚ := min ((m : ℚ) / (w : ℚ)) ((m : ℚ) / (h : ℚ))
  ((Int.floor ((w : ℚ) * fit)).toNat, (Int.floor ((h : ℚ) * fit)).toNat)

/-- `crop_and_center(cell_img, target_size=256)`: remove the checkerboard
background, crop to the alpha bounding box, and — unless the cropped image
has a zero dimension, in which case a blank canvas is returned — scale to
fit inside `target_size - 2*padding` preserving aspect ratio and paste
centred on a transparent canvas; `none` models the `ValueError` that
`resize` raises when a computed scaled dimension is 0. -/
def crop_and_center (cell_img : Img) (target_size : ℕ := 256) : Option Img :=
  let cleaned := remove_checkerboard_bg cell_img
  let cropped := auto_crop_alpha cleaned
  let w := cropped.width
  let h := cropped.height
  if w = 0 ∨ h = 0 then
    some (newImg target_size target_size)
  else
    let padding := 16
    let max_dim := target_size - padding * 2
    let nd := new_dims w h max_dim
    (resize cropped nd.1 nd.2).map fun resized =>
      let result := newImg target_size target_size
      let paste_x := (target_size - nd.1) / 2
      let paste_y := (target_size - nd.2) / 2
      paste_mask result resized paste_x paste_y

/-! ## The configuration tables (lines 16–64) -/

/-- One entry of `SHEETS`: a source file name and its four species, one per
row from top to bottom. -/
structure Sheet where
  file : String
  species : List String

def SHEETS : List Sheet := [
  ⟨"Gemini_Generated_Image_quvfovquvfovquvf.png",
    ["spirit_dog", "chick_bird", "young_scale", "beetle"]⟩,
  ⟨"Gemini_Generated_Image_tt5yqbtt5yqbtt5y.png",
    ["electric_mouse", "hard_crab", "mimic_lizard", "seed_ball"]⟩,
  ⟨"Gemini_Generated_Image_sug7njsug7njsug7.png",
    ["jellyfish", "ore_giant", "jungle_cub", "sky_dragon"]⟩,
  ⟨"Gemini_Generated_Image_nbsvaxnbsvaxnbsv.png",
    ["dune_bug", "sonic_bat", "snow_beast", "circuit_fish"]⟩,
  ⟨"Gemini_Generated_Image_tj9euntj9euntj9e.png",
    ["mushroom", "crystal_beast", "nebula_fish", "clockwork_bird"]⟩]

/-- `COL_SUFFIXES`: column index to output file-name suffix. -/
def COL_SUFFIXES : List String :=
  ["-2", "-a3", "-a4", "-a5", "-b3", "-b4", "-b5"]

/-- An `EGG_COLORS` value: the three colors of one species' egg. -/
structure EggPalette where
  primary : String
  secondary : String
  spot : String
deriving DecidableEq

def EGG_COLORS : List (String × EggPalette) := [
  ("spirit_dog", ⟨"#C8B896", "#A08868", "#E8D8C0"⟩),
  ("chick_bird", ⟨"#A0C8E8", "#6898C0", "#C8E0F8"⟩),
  ("young_scale", ⟨"#4A90B8", "#2A6088", "#78B0D0"⟩),
  ("beetle", ⟨"#88A848", "#587828", "#A8C868"⟩),
  ("electric_mouse", ⟨"#E8D040", "#B8A020", "#F8E878"⟩),
  ("hard_crab", ⟨"#B0886A", "#88603A", "#D0A88A"⟩),
  ("mimic_lizard", ⟨"#B8B8B8", "#888888", "#D8D8D8"⟩),
  ("seed_ball", ⟨"#68B048", "#408020", "#90D070"⟩),
  ("jellyfish", ⟨"#88C0E8", "#5090C0", "#B0D8F8"⟩),
  ("ore_giant", ⟨"#8888A0", "#585878", "#A8A8C0"⟩),
  ("jungle_cub", ⟨"#58A038", "#387018", "#80C060"⟩),
  ("sky_dragon", ⟨"#E88040", "#C06020", "#F8A868"⟩),
  ("dune_bug", ⟨"#C8A868", "#987838", "#E0C890"⟩),
  ("sonic_bat", ⟨"#9088B8", "#685898", "#B0A8D8"⟩),
  ("snow_beast", ⟨"#C0D8E8", "#90B0C8", "#E0F0FF"⟩),
  ("circuit_fish", ⟨"#4888B8", "#285888", "#70A8D8"⟩),
  ("mushroom", ⟨"#C07848", "#904818", "#E09870"⟩),
  ("crystal_beast", ⟨"#B090D0", "#8060A8", "#D0B8E8"⟩),
  ("nebula_fish", ⟨"#6070B8", "#384090", "#8898D8"⟩),
  ("clockwork_bird", ⟨"#A0A0B0", "#707088", "#C0C0D0"⟩)]

/-- The species of the five sheets in processing order (outer loop over
`SHEETS`, inner loop over each sheet's four rows). -/
def all_sheet_species : List String :=
  SHEETS.flatMap Sheet.species

/-- The keys of `EGG_COLORS` in iteration order. -/
def egg_species : List String :=
  EGG_COLORS.map Prod.fst

/-! ## `generate_egg_svg` (lines 67–86) -/

/-- `generate_egg_svg(species, colors)`: the f-string of the source with the
three palette colors interpolated.  The `species` argument is accepted and
unused, exactly as in the source. -/
def generate_egg_svg (species : String) (colors : EggPalette) : String :=
  "<svg xmlns=\"http://www.w3.org/2000/svg\" viewBox=\"0 0 64 64\" width=\"256\" height=\"256\">\n  <defs>\n    <radialGradient id=\"egg-grad\" cx=\"40%\" cy=\"35%\" r=\"60%\">\n      <stop offset=\"0%\" stop-color=\"" ++
    colors.spot ++
    "\"/>\n      <stop offset=\"60%\" stop-color=\"" ++
    colors.primary ++
    "\"/>\n      <stop offset=\"100%\" stop-color=\"" ++
    colors.secondary ++
    "\"/>\n    </radialGradient>\n    <radialGradient id=\"shine\" cx=\"35%\" cy=\"30%\" r=\"25%\">\n      <stop offset=\"0%\" stop-color=\"white\" stop-opacity=\"0.6\"/>\n      <stop offset=\"100%\" stop-color=\"white\" stop-opacity=\"0\"/>\n    </radialGradient>\n  </defs>\n  <ellipse cx=\"32\" cy=\"35\" rx=\"18\" ry=\"23\" fill=\"url(#egg-grad)\" stroke=\"" ++
    colors.secondary ++
    "\" stroke-width=\"1.5\"/>\n  <ellipse cx=\"28\" cy=\"28\" rx=\"8\" ry=\"10\" fill=\"url(#shine)\"/>\n  <ellipse cx=\"38\" cy=\"42\" rx=\"4\" ry=\"3\" fill=\"" ++
    colors.spot ++
    "\" opacity=\"0.5\"/>\n  <ellipse cx=\"26\" cy=\"44\" rx=\"3\" ry=\"2.5\" fill=\"" ++
    colors.spot ++
    "\" opacity=\"0.4\"/>\n  <ellipse cx=\"36\" cy=\"30\" rx=\"2.5\" ry=\"2\" fill=\"" ++
    colors.spot ++
    "\" opacity=\"0.3\"/>\n</svg>"

/-! ## `main`'s outputs (lines 209–290)

`main` first empties (or creates) the output directory, then writes files
by name; no name is written twice within a run, so the directory's final
contents are exactly the names below. -/

/-- The 140 PNG names `main` writes, in write order: for each sheet, for
each row's species, for each column, `f"{species}{suffix}.png"`. -/
def main_png_names : List String :=
  SHEETS.flatMap fun sh =>
    sh.species.flatMap fun sp =>
      COL_SUFFIXES.map fun suf => sp ++ suf ++ ".png"

/-- The 20 egg SVG names `main` writes: `f"{species}-1.svg"` for every key
of `EGG_COLORS`. -/
def egg_svg_names : List String :=
  EGG_COLORS.map fun e => e.fst ++ "-1.svg"

/-- Every file name a successful run leaves in the (freshly emptied)
output directory, in write order. -/
def output_files : List String :=
  main_png_names ++ egg_svg_names ++ ["mystery-evolution.png"]

/-! ## The cell grid arithmetic of `main` (lines 227–255) -/

/-- Python's `int()` applied to an exact rational: truncation toward zero
(the ceiling of a negative value, the floor of a nonnegative one).  Every
value the script truncates is nonnegative for its real sheet sizes, where
this is a floor. -/
def pyInt (q : ℚ) : ℤ :=
  if q < 0 then ⌈q⌉ else ⌊q⌋

/-- The cell rectangle `(left, top, right, bottom)` `main` crops for sheet
size `img_w × img_h`, row `row_i`, column `col_i`: the float layout
arithmetic of lines 232–252 over exact rationals (`content_width = img_w -
316`, `row_height = img_h / 4`, `col_width = content_width / 7`,
`monster_height = row_height - 120`, `h_inset = 30`, `v_inset_top = 12`). -/
def cellBox (img_w img_h row_i col_i : ℕ) : ℤ × ℤ × ℤ × ℤ :=
  let content_width : ℚ := (img_w : ℚ) - 316
  let row_height : ℚ := (img_h : ℚ) / 4
  let col_width : ℚ := content_width / 7
  let monster_height : ℚ := row_height - 120
  let h_inset : ℤ := 30
  let v_inset_top : ℤ := 12
  (pyInt ((col_i : ℚ) * col_width) + h_inset,
    pyInt ((row_i : ℚ) * row_height) + v_inset_top,
    pyInt (((col_i : ℚ) + 1) * col_width) - h_inset,
    pyInt ((row_i : ℚ) * row_height + monster_height))

/-- The cell rectangle as claim C5 words it: the rectangle spanning columns
`[c*col_width, (c+1)*col_width]` and rows `[r*row_height, r*row_height +
monster_height]` inset by the horizontal margin (30 px on each side) and
the vertical margin (12 px on each of top and bottom). -/
def cellBoxClaimed (img_w img_h row_i col_i : ℕ) : ℤ × ℤ × ℤ × ℤ :=
  let content_width : ℚ := (img_w : ℚ) - 316
  let row_height : ℚ := (img_h : ℚ) / 4
  let col_width : ℚ := content_width / 7
  let monster_height : ℚ := row_height - 120
  (pyInt ((col_i : ℚ) * col_width) + 30,
    pyInt ((row_i : ℚ) * row_height) + 12,
    pyInt (((col_i : ℚ) + 1) * col_width) - 30,
    pyInt ((row_i : ℚ) * row_height + monster_height) - 12)

/-- The cell rectangle as amended: the same spanning rectangle, with the
horizontal margin (30 px) inset on both the left and right edges and the
vertical margin (12 px) inset on the top edge only — the bottom edge is
already the caption trim `r*row_height + monster_height` and receives no
further inset. -/
def cellBoxAmended (img_w img_h row_i col_i : ℕ) : ℤ × ℤ × ℤ × ℤ :=
  let content_width : ℚ := (img_w : ℚ) - 316
  let row_height : ℚ := (img_h : ℚ) / 4
  let col_width : ℚ := content_width / 7
  let monster_height : ℚ := row_height - 120
  (pyInt ((col_i : ℚ) * col_width) + 30,
    pyInt ((row_i : ℚ) * row_height) + 12,
    pyInt (((col_i : ℚ) + 1) * col_width) - 30,
    pyInt ((row_i : ℚ) * row_height + monster_height))

/-! ## C8: the spirit_dog egg gradient -/

/-- The `EGG_COLORS` entry of `spirit_dog`. -/
def spirit_dog_palette : EggPalette :=
  ⟨"#C8B896", "#A08868", "#E8D8C0"⟩

/-- One `<stop>` element of the emitted document. -/
def stop_tag (off col : String) : String :=
  "<stop offset=\"" ++ off ++ "\" stop-color=\"" ++ col ++ "\"/>"

/-- The emitted document's text before the `egg-grad` gradient element. -/
def svg_before_egg_grad : String :=
  "<svg xmlns=\"http://www.w3.org/2000/svg\" viewBox=\"0 0 64 64\" width=\"256\" height=\"256\">\n  <defs>\n    "

/-- The opening tag of the `egg-grad` radial gradient. -/
def egg_grad_open : String :=
  "<radialGradient id=\"egg-grad\" cx=\"40%\" cy=\"35%\" r=\"60%\">"

/-- The emitted document's text after the closed `egg-grad` gradient, for
the spirit_dog palette. -/
def svg_after_egg_grad : String :=
  "\n    <radialGradient id=\"shine\" cx=\"35%\" cy=\"30%\" r=\"25%\">\n      <stop offset=\"0%\" stop-color=\"white\" stop-opacity=\"0.6\"/>\n      <stop offset=\"100%\" stop-color=\"white\" stop-opacity=\"0\"/>\n    </radialGradient>\n  </defs>\n  <ellipse cx=\"32\" cy=\"35\" rx=\"18\" ry=\"23\" fill=\"url(#egg-grad)\" stroke=\"#A08868\" stroke-width=\"1.5\"/>\n  <ellipse cx=\"28\" cy=\"28\" rx=\"8\" ry=\"10\" fill=\"url(#shine)\"/>\n  <ellipse cx=\"38\" cy=\"42\" rx=\"4\" ry=\"3\" fill=\"#E8D8C0\" opacity=\"0.5\"/>\n  <ellipse cx=\"26\" cy=\"44\" rx=\"3\" ry=\"2.5\" fill=\"#E8D8C0\" opacity=\"0.4\"/>\n  <ellipse cx=\"36\" cy=\"30\" rx=\"2.5\" ry=\"2\" fill=\"#E8D8C0\" opacity=\"0.3\"/>\n</svg>"

/-! ## Helper lemmas -/

/-- A fully transparent image has no non-transparent points. -/
lemma opaquePoints_eq_nil (img : Img) (htr : fullyTransparent img) :
    opaquePoints img = [] := by
  rw [List.eq_nil_iff_forall_not_mem]
  rintro ⟨x, y⟩ hmem
  unfold opaquePoints at hmem
  rw [List.mem_flatMap] at hmem
  obtain ⟨x', hx', hmem⟩ := hmem
  rw [List.mem_filterMap] at hmem
  obtain ⟨y', hy', heq⟩ := hmem
  rw [List.mem_range] at hx' hy'
  by_cases ha : (img.pixel x' y').a ≠ 0
  · exact ha (htr x' hx' y' hy')
  · rw [if_neg ha] at heq
    exact Option.noConfusion heq

/-- `getbbox` of a fully transparent image is `None`. -/
lemma getbbox_eq_none (img : Img) (htr : fullyTransparent img) :
    getbbox img = none := by
  unfold getbbox
  rw [opaquePoints_eq_nil img htr]

/-- `auto_crop_alpha` leaves a fully transparent image unchanged. -/
lemma auto_crop_alpha_of_transparent (img : Img) (htr : fullyTransparent img) :
    auto_crop_alpha img = img := by
  unfold auto_crop_alpha
  rw [getbbox_eq_none img htr]

/-- Checkerboard removal keeps a fully transparent image fully
transparent. -/
lemma remove_checkerboard_bg_transparent (img : Img)
    (htr : fullyTransparent img) :
    fullyTransparent (remove_checkerboard_bg img) := by
  intro x hx y hy
  have h0 := htr x hx y hy
  simp only [remove_checkerboard_bg]
  cases hg : isGray (img.pixel x y) <;> simp [hg, h0]

/-- The point-sampled resize of a fully transparent image (with positive
source dimensions) is fully transparent. -/
lemma resize_transparent (img : Img) (nw nh : ℕ) (res : Img)
    (hw : 0 < img.width) (hh : 0 < img.height)
    (htr : fullyTransparent img) (hres : resize img nw nh = some res) :
    fullyTransparent res := by
  unfold resize at hres
  split at hres
  · exact Option.noConfusion hres
  · rename_i hcond
    push_neg at hcond
    injection hres with hres
    subst hres
    intro x hx y hy
    apply htr
    · rw [Nat.div_lt_iff_lt_mul (Nat.pos_of_ne_zero hcond.1)]
      calc x * img.width < nw * img.width := by
            exact mul_lt_mul_of_pos_right hx hw
        _ = img.width * nw := Nat.mul_comm _ _
    · rw [Nat.div_lt_iff_lt_mul (Nat.pos_of_ne_zero hcond.2)]
      calc y * img.height < nh * img.height := by
            exact mul_lt_mul_of_pos_right hy hh
        _ = img.height * nh := Nat.mul_comm _ _

/-- Pasting a fully transparent source onto a fully transparent destination
(masked by the source's own alpha) is fully transparent. -/
lemma paste_mask_transparent (dest src : Img) (px py : ℕ)
    (hd : fullyTransparent dest) (hs : fullyTransparent src) :
    fullyTransparent (paste_mask dest src px py) := by
  intro x hx y hy
  simp only [paste_mask]
  split
  · rename_i hbox
    obtain ⟨h1, h2, h3, h4⟩ := hbox
    have hsa : (src.pixel (x - px) (y - py)).a = 0 :=
      hs (x - px) (by omega) (y - py) (by omega)
    have hda : (dest.pixel x y).a = 0 := hd x hx y hy
    simp [blendChannel, hsa, hda]
  · exact hd x hx y hy

/-- The scale factor keeps the scaled long side at least one pixel:
`1 ≤ ⌊w * min (m/w) (m/h)⌋` once `h ≤ m * w`. -/
lemma fit_floor_pos (m w h : ℕ) (hm : 0 < m) (hw : 0 < w) (hh : 0 < h)
    (hle : h ≤ m * w) :
    1 ≤ ⌊(w : ℚ) * min ((m : ℚ) / (w : ℚ)) ((m : ℚ) / (h : ℚ))⌋ := by
  rw [Int.le_floor]
  push_cast
  rcases min_cases ((m : ℚ) / (w : ℚ)) ((m : ℚ) / (h : ℚ)) with
    ⟨hmin, _⟩ | ⟨hmin, _⟩ <;> rw [hmin]
  · rw [mul_comm, div_mul_cancel₀]
    · exact_mod_cast hm
    · exact_mod_cast hw.ne'
  · rw [mul_comm, div_mul_eq_mul_div, one_le_div]
    · exact_mod_cast hle
    · exact_mod_cast hh

/-! ## Claim theorems -/

/-- C4: the checkerboard-removal step zeroes a pixel's alpha exactly when
the pixel is classified gray — maximum pairwise channel difference strictly
below 20 and average brightness strictly above 180 — and otherwise keeps
the alpha; in particular a pixel with channels (200,200,205) is zeroed
whatever its alpha was, while a pixel with channels (200,50,50) never is. -/
theorem C4_checkerboard_rule :
    (∀ (img : Img) (x y : ℕ),
        ((remove_checkerboard_bg img).pixel x y).a =
          if isGray (img.pixel x y) then 0 else (img.pixel x y).a) ∧
    (∀ p : Pixel, isGray p = true ↔ maxDiff p < 20 ∧ (180 : ℚ) < brightness p) ∧
    (∀ al : ℕ, isGray ⟨200, 200, 205, al⟩ = true) ∧
    (∀ al : ℕ, isGray ⟨200, 50, 50, al⟩ = false) := by
  refine ⟨?_, ?_, ?_, ?_⟩
  · intro img x y
    simp only [remove_checkerboard_bg]
    cases hg : isGray (img.pixel x y) <;> simp [hg]
  · intro p
    simp [isGray]
  · intro al
    simp [isGray, maxDiff, brightness]
    norm_num
  · intro al
    simp [isGray, maxDiff, brightness]

/-- C9: the checkerboard-removal step touches nothing but the alpha
channel — every pixel's R, G, B values and the image dimensions are
preserved, and a pixel that is not classified gray keeps its alpha too. -/
theorem C9_only_alpha_modified :
    ∀ (img : Img) (x y : ℕ),
      ((remove_checkerboard_bg img).pixel x y).r = (img.pixel x y).r ∧
      ((remove_checkerboard_bg img).pixel x y).g = (img.pixel x y).g ∧
      ((remove_checkerboard_bg img).pixel x y).b = (img.pixel x y).b ∧
      (isGray (img.pixel x y) = false →
        ((remove_checkerboard_bg img).pixel x y).a = (img.pixel x y).a) ∧
      (remove_checkerboard_bg img).width = img.width ∧
      (remove_checkerboard_bg img).height = img.height := by
  intro img x y
  simp only [remove_checkerboard_bg]
  cases hg : isGray (img.pixel x y) <;> simp [hg]

/-- C10: the checkerboard-removal step is idempotent — the gray mask reads
only the R, G, B channels, which a first application leaves unchanged, so a
second application changes nothing. -/
theorem C10_remove_checkerboard_idempotent :
    ∀ img : Img,
      remove_checkerboard_bg (remove_checkerboard_bg img) =
        remove_checkerboard_bg img := by
  intro img
  refine Img.ext rfl rfl ?_
  funext x y
  simp only [remove_checkerboard_bg]
  cases hg : isGray (img.pixel x y)
  · simp [hg]
  · have hg' : isGray ⟨(img.pixel x y).r, (img.pixel x y).g,
        (img.pixel x y).b, 0⟩ = isGray (img.pixel x y) := rfl
    simp [hg, hg']

set_option maxRecDepth 100000 in
/-- C2: one PNG per (species, suffix) pair — the 140 names are exactly the
product of the 20 pairwise-distinct sheet species and the 7
pairwise-distinct column suffixes, with no duplicate and no gap — and with
the 20 egg SVGs and `mystery-evolution.png` a successful run leaves exactly
161 distinct file names in the freshly emptied output directory. -/
theorem C2_output_file_set :
    main_png_names.length = 140 ∧
    all_sheet_species.length = 20 ∧
    all_sheet_species.Nodup ∧
    COL_SUFFIXES.Nodup ∧
    main_png_names.Nodup ∧
    main_png_names =
      all_sheet_species.flatMap
        (fun sp => COL_SUFFIXES.map (fun suf => sp ++ suf ++ ".png")) ∧
    egg_svg_names.length = 20 ∧
    output_files.length = 161 ∧
    output_files.Nodup := by
  decide

/-- C5 counterexample: at the real sheet size 2816×1536, row 0, column 0,
the code's cell rectangle has bottom edge 264 while the claimed rectangle
(vertical margin inset on both the top and the bottom edge) would have
bottom edge 252 — the claim as stated is false. -/
theorem C5_counterexample :
    cellBox 2816 1536 0 0 ≠ cellBoxClaimed 2816 1536 0 0 := by
  simp only [cellBox, cellBoxClaimed, pyInt, Prod.mk.injEq, ne_eq]
  norm_num

/-- C5 (amended): for every sheet size and every row and column the cell
rectangle is computed from content width `W - 316`, column width
`content/7`, row height `H/4` and monster height `row height - 120`, with
the 30 px horizontal margin inset on both vertical edges and the 12 px
vertical margin inset on the top edge only (the bottom edge is the caption
trim and receives no inset). -/
theorem C5_cell_rectangle :
    ∀ img_w img_h row_i col_i : ℕ,
      cellBox img_w img_h row_i col_i = cellBoxAmended img_w img_h row_i col_i :=
  fun _ _ _ _ => rfl

set_option maxRecDepth 10000 in
/-- C7 counterexample: the palette keys coincide with the sheet species —
`EGG_COLORS`'s key list equals the flattened sheet species list, so there
is no species in the palette beyond those produced by the sheets and the
containment is not strict. -/
theorem C7_counterexample :
    egg_species = all_sheet_species ∧
    ¬ ∃ s, s ∈ egg_species ∧ s ∉ all_sheet_species := by
  have he : egg_species = all_sheet_species := by decide
  exact ⟨he, fun ⟨s, hs, hns⟩ => hns (he ▸ hs)⟩

set_option maxRecDepth 10000 in
/-- C7 (amended): the egg palette table covers exactly 20 species and its
key set equals (is a non-strict superset of) the sheet-derived species
set; all 20 palette entries are emitted as egg files regardless of the
sheet list, which the egg loop never reads. -/
theorem C7_palette_species :
    egg_species.length = 20 ∧ egg_species.Nodup ∧
    (∀ s ∈ all_sheet_species, s ∈ egg_species) ∧
    (∀ s ∈ egg_species, s ∈ all_sheet_species) ∧
    egg_svg_names.length = 20 := by
  decide

set_option maxRecDepth 40000 in
/-- C8: for species spirit_dog the palette is {primary #C8B896, secondary
#A08868, spot #E8D8C0} and the emitted document contains the radial
gradient `egg-grad` whose three stops are, in order, the spot color
#E8D8C0 at offset 0%, the primary #C8B896 at 60% and the secondary
#A08868 at 100%, before the gradient's closing tag. -/
theorem C8_spirit_dog_gradient :
    EGG_COLORS.lookup ("spirit_dog") = some spirit_dog_palette ∧
    generate_egg_svg ("spirit_dog") spirit_dog_palette =
      svg_before_egg_grad ++ egg_grad_open ++ "\n      " ++
        stop_tag ("0%") ("#E8D8C0") ++ "\n      " ++
        stop_tag ("60%") ("#C8B896") ++ "\n      " ++
        stop_tag ("100%") ("#A08868") ++
        "\n    </radialGradient>" ++ svg_after_egg_grad := by
  exact ⟨rfl, rfl⟩

/-- Both scaled dimensions are nonzero when the cropped content's aspect
ratio is at most `m` in both directions. -/
lemma new_dims_pos (w h : ℕ) (hw : 0 < w) (hh : 0 < h)
    (h1 : h ≤ 224 * w) (h2 : w ≤ 224 * h) :
    (new_dims w h 224).1 ≠ 0 ∧ (new_dims w h 224).2 ≠ 0 := by
  unfold new_dims
  constructor
  · have hf := fit_floor_pos 224 w h (by norm_num) hw hh h1
    simp only
    omega
  · have hf := fit_floor_pos 224 h w (by norm_num) hh hw h2
    rw [min_comm] at hf
    simp only
    omega

/-- The scaled width collapses to zero for the 1 × 225 cropped content. -/
lemma new_dims_thin : (new_dims 1 225 224).1 = 0 := by
  unfold new_dims
  simp only
  push_cast
  rw [min_eq_right (by norm_num : (224 : ℚ) / 225 ≤ 224 / 1)]
  norm_num

/-- C6 counterexample: a fully transparent 3 × 2 input refutes the claim
that the bounding-box step itself yields a target-size canvas — the step
returns the 3 × 2 input, not a 256 × 256 image. -/
theorem C6_counterexample :
    ¬ ((auto_crop_alpha (constImg 3 2 ⟨0, 0, 0, 0⟩)).width = 256 ∧
        (auto_crop_alpha (constImg 3 2 ⟨0, 0, 0, 0⟩)).height = 256) := by
  decide

/-- C6 (amended): applied to an image with no non-fully-transparent pixel,
the alpha bounding-box step finds no bounding box and returns its input
unchanged (no error); the blank target-size canvas appears only later in
`crop_and_center`. -/
theorem C6_bbox_none_returns_input :
    ∀ img : Img, fullyTransparent img → auto_crop_alpha img = img :=
  fun img htr => auto_crop_alpha_of_transparent img htr

/-- C6 witness: the amended statement at the concrete fully transparent
3 × 2 input. -/
theorem C6_witness :
    auto_crop_alpha (constImg 3 2 ⟨0, 0, 0, 0⟩) = constImg 3 2 ⟨0, 0, 0, 0⟩ :=
  C6_bbox_none_returns_input (constImg 3 2 ⟨0, 0, 0, 0⟩) (by decide)

/-- C1 (amended): whenever `crop_and_center` returns an image — which it
fails to do only when a computed scaled dimension is zero and the resize
raises — that image is exactly 256 × 256 (RGBA by construction of the
embedding). -/
theorem C1_output_always_square :
    ∀ (img res : Img), crop_and_center img = some res →
      res.width = 256 ∧ res.height = 256 := by
  intro img res h
  simp only [crop_and_center] at h
  split at h
  · injection h with h
    subst h
    exact ⟨rfl, rfl⟩
  · rw [Option.map_eq_some'] at h
    obtain ⟨resized, hrz, hres⟩ := h
    subst hres
    exact ⟨rfl, rfl⟩

/-- C1 witness: the degenerate 0 × 0 input takes the blank-canvas branch,
and the returned canvas is 256 × 256. -/
theorem C1_witness :
    crop_and_center (constImg 0 0 ⟨0, 0, 0, 0⟩) = some (newImg 256 256) ∧
    (newImg 256 256).width = 256 ∧ (newImg 256 256).height = 256 := by
  have h : crop_and_center (constImg 0 0 ⟨0, 0, 0, 0⟩) = some (newImg 256 256) := rfl
  exact ⟨h, C1_output_always_square (constImg 0 0 ⟨0, 0, 0, 0⟩) (newImg 256 256) h⟩

lemma remove_checkerboard_bg_width (img : Img) :
    (remove_checkerboard_bg img).width = img.width := rfl

lemma remove_checkerboard_bg_height (img : Img) :
    (remove_checkerboard_bg img).height = img.height := rfl

set_option maxRecDepth 10000 in
/-- The pipeline on a fully transparent 1 × 225 input: the cropped content
keeps its 1 × 225 extent, the scaled width `int(1 * 224/225)` collapses to
0 and the resize raises (`none`). -/
lemma crop_and_center_thin_transparent :
    crop_and_center (constImg 1 225 ⟨0, 0, 0, 0⟩) = none := by
  have htr : fullyTransparent (constImg 1 225 ⟨0, 0, 0, 0⟩) := by decide
  have hcl : fullyTransparent (remove_checkerboard_bg (constImg 1 225 ⟨0, 0, 0, 0⟩)) :=
    remove_checkerboard_bg_transparent _ htr
  have hauto : auto_crop_alpha (remove_checkerboard_bg (constImg 1 225 ⟨0, 0, 0, 0⟩)) =
      remove_checkerboard_bg (constImg 1 225 ⟨0, 0, 0, 0⟩) :=
    auto_crop_alpha_of_transparent _ hcl
  simp only [crop_and_center, hauto, remove_checkerboard_bg_width,
    remove_checkerboard_bg_height]
  rw [if_neg (by decide : ¬ ((constImg 1 225 ⟨0, 0, 0, 0⟩).width = 0 ∨
    (constImg 1 225 ⟨0, 0, 0, 0⟩).height = 0))]
  rw [show ((constImg 1 225 ⟨0, 0, 0, 0⟩).width : ℕ) = 1 from rfl,
    show ((constImg 1 225 ⟨0, 0, 0, 0⟩).height : ℕ) = 225 from rfl,
    show (256 - 16 * 2 : ℕ) = 224 from rfl]
  rw [show resize (remove_checkerboard_bg (constImg 1 225 ⟨0, 0, 0, 0⟩))
      (new_dims 1 225 224).1 (new_dims 1 225 224).2 = none from by
    rw [resize, if_pos (Or.inl new_dims_thin)]]
  rfl

/-- C1 counterexample: a 1 × 225 (fully transparent) input makes the scaled
width `int(1 * 224/225)` zero, so `crop_and_center` raises `ValueError`
inside `resize` (modelled `none`) and returns no 256 × 256 image — the
claim's "any dimensions" guarantee fails. -/
theorem C1_counterexample :
    crop_and_center (constImg 1 225 ⟨0, 0, 0, 0⟩) = none :=
  crop_and_center_thin_transparent

/-- C3 counterexample: for the fully transparent 1 × 225 input the pipeline
does not return a fully transparent 256 × 256 image — the resize step
raises `ValueError` (modelled `none`), refuting the claim's "any size". -/
theorem C3_counterexample :
    ¬ ∃ res, crop_and_center (constImg 1 225 ⟨0, 0, 0, 0⟩) = some res ∧
        res.width = 256 ∧ res.height = 256 ∧ fullyTransparent res := by
  rintro ⟨res, hres, -⟩
  rw [crop_and_center_thin_transparent] at hres
  exact Option.noConfusion hres

/-- C3 (amended): for every fully transparent input that has a zero
dimension, or whose dimensions are at most 2³¹ (as any PIL image's are)
with aspect ratio strictly below 224 in both directions — so that the
scaled dimensions stay nonzero in exact and in the program's float
arithmetic alike — `crop_and_center` returns, without error, a fully
transparent 256 × 256 image. -/
theorem C3_transparent_gives_blank :
    ∀ img : Img, fullyTransparent img →
      (img.width = 0 ∨ img.height = 0 ∨
        (img.width ≤ 2 ^ 31 ∧ img.height ≤ 2 ^ 31 ∧
          img.height < 224 * img.width ∧ img.width < 224 * img.height)) →
      ∃ res, crop_and_center img = some res ∧
        res.width = 256 ∧ res.height = 256 ∧ fullyTransparent res := by
  intro img htr hcond
  have hcl : fullyTransparent (remove_checkerboard_bg img) :=
    remove_checkerboard_bg_transparent img htr
  have hauto : auto_crop_alpha (remove_checkerboard_bg img) =
      remove_checkerboard_bg img :=
    auto_crop_alpha_of_transparent _ hcl
  by_cases hz : img.width = 0 ∨ img.height = 0
  · refine ⟨newImg 256 256, ?_, rfl, rfl, fun x _ y _ => rfl⟩
    simp only [crop_and_center, hauto, remove_checkerboard_bg_width,
      remove_checkerboard_bg_height]
    rw [if_pos hz]
  · push_neg at hz
    obtain ⟨hw0, hh0⟩ := hz
    have hcond' : img.height ≤ 224 * img.width ∧ img.width ≤ 224 * img.height := by
      rcases hcond with h | h | h
      · exact absurd h hw0
      · exact absurd h hh0
      · exact ⟨Nat.le_of_lt h.2.2.1, Nat.le_of_lt h.2.2.2⟩
    obtain ⟨hnd1, hnd2⟩ := new_dims_pos img.width img.height
      (Nat.pos_of_ne_zero hw0) (Nat.pos_of_ne_zero hh0) hcond'.1 hcond'.2
    have hrzsome : ∃ rz, resize (remove_checkerboard_bg img)
        (new_dims img.width img.height 224).1
        (new_dims img.width img.height 224).2 = some rz := by
      rw [resize, if_neg (by push_neg; exact ⟨hnd1, hnd2⟩)]
      exact ⟨_, rfl⟩
    obtain ⟨rz, hrz⟩ := hrzsome
    have hrztr : fullyTransparent rz :=
      resize_transparent (remove_checkerboard_bg img) _ _ rz
        (Nat.pos_of_ne_zero hw0) (Nat.pos_of_ne_zero hh0) hcl hrz
    refine ⟨paste_mask (newImg 256 256) rz
        ((256 - (new_dims img.width img.height 224).1) / 2)
        ((256 - (new_dims img.width img.height 224).2) / 2), ?_, rfl, rfl,
      paste_mask_transparent (newImg 256 256) rz _ _ (fun x _ y _ => rfl) hrztr⟩
    simp only [crop_and_center, hauto, remove_checkerboard_bg_width,
      remove_checkerboard_bg_height]
    rw [if_neg (by push_neg; exact ⟨hw0, hh0⟩)]
    rw [show (256 - 16 * 2 : ℕ) = 224 from rfl]
    rw [hrz]
    rfl

/-- C3 witness: the amended statement at the concrete fully transparent
4 × 4 input, whose aspect ratio is within bounds. -/
theorem C3_witness :
    ∃ res, crop_and_center (constImg 4 4 ⟨0, 0, 0, 0⟩) = some res ∧
      res.width = 256 ∧ res.height = 256 ∧ fullyTransparent res :=
  C3_transparent_gives_blank (constImg 4 4 ⟨0, 0, 0, 0⟩) (by decide) (by decide)
